import Mathlib

/-!
Shallow embedding of `MainHelper.establishServiceWorkerChannel`
(src/src/helpers/MainHelper.ts, lines 142-216) of the OneSignal-Website-SDK
event-delivery layer, together with the collaborator interfaces it uses
(WorkerMessenger, ProxyFrame messenger, Event.trigger, Database.put), which
are not part of the excerpt and are therefore modelled from the spec's
contracts.

The handlers are embedded as pure functions from an explicit environment
(window-environment kind, proxy-frame reference, local listener registry,
`location.href`, `Date.now()`, and whether the IndexedDB put succeeds) and a
message payload, to a trace of externally observable effects plus a dispatch
result. An async handler that awaits a promise that can never resolve is
given the result `suspended`; a handler whose awaited `Database.put`
rejects is given the result `failed` (the rejection propagates to the
caller of the dispatch).
-/

namespace OneSignalSDK

/-- The worker-messenger command kinds consumed by
`establishServiceWorkerChannel` (from `WorkerMessengerCommand`). -/
inductive WorkerMessengerCommand
  | NotificationDisplayed
  | NotificationClicked
  | RedirectPage
  | NotificationDismissed
deriving DecidableEq

/-- Window environment kinds (from `WindowEnvironmentKind`); the router only
ever tests whether the current context is `OneSignalProxyFrame`. -/
inductive WindowEnvironmentKind
  | ServiceWorker
  | Host
  | OneSignalSubscriptionPopup
  | OneSignalSubscriptionModal
  | OneSignalProxyFrame
  | CustomIframe
deriving DecidableEq

/-- The local event kinds of `OneSignal.EVENTS` used by the router. -/
inductive OneSignalEvent
  | NOTIFICATION_DISPLAYED
  | NOTIFICATION_CLICKED
  | NOTIFICATION_DISMISSED
deriving DecidableEq

/-- The `OneSignal.POSTMAM_COMMANDS` message names used by the router. -/
inductive PostmamCommand
  | GET_EVENT_LISTENER_COUNT
  | SERVICEWORKER_COMMAND_REDIRECT
deriving DecidableEq

/-- The duck-typed payload `data` delivered with a worker command.
`url = none` models an absent (`undefined`) `url` property; `raw` stands for
the remaining, otherwise uninspected, content of the value (the handlers
pass the payload through verbatim and only the clicked handler reads
`data.url`). -/
structure WorkerData where
  url : Option String
  raw : String
deriving DecidableEq

/-- The record written by
`Database.put('NotificationOpened', \x7b url, data, timestamp \x7d)`. -/
structure InboxEntry where
  url : String
  data : WorkerData
  timestamp : Nat
deriving DecidableEq

/-- Modelled from the spec: the Proxy Reply Channel's `query(kind, onReply)`
invokes `onReply` exactly once with the remote count (`reply.data`); the
implementation (`ProxyFrame`/Postmam) is not part of the excerpt, so a
proxy-frame reference is modelled by the integer its single reply carries. -/
structure ProxyFrame where
  replyData : Nat
deriving DecidableEq

/-- The ambient state the handlers read: the execution context's role
(`SdkEnvironment.getWindowEnv()`), `OneSignal.proxyFrame`, the local listener
registry behind `OneSignal.getListeners`, `location.href`, `Date.now()`, and
whether the awaited `Database.put` succeeds (`dbPutOk = false` models a
storage-layer rejection). Listener registrations are opaque handles. -/
structure Env where
  windowEnv : WindowEnvironmentKind
  proxyFrame : Option ProxyFrame
  listeners : OneSignalEvent → List Nat
  locationHref : String
  now : Nat
  dbPutOk : Bool

/-- Externally observable effects of a handler run: a local broadcast
(`Event.trigger`), a durable inbox write (`Database.put`), an outbound
presence query (`proxyFrame.messenger.message(GET_EVENT_LISTENER_COUNT,
event, onReply)`), or an outbound fire-and-forget relay
(`proxyFrame.messenger.message(cmd, data)`). -/
inductive Effect
  | eventTrigger (event : OneSignalEvent) (data : WorkerData)
  | dbPut (tableName : String) (entry : InboxEntry)
  | proxyQueryMessage (cmd : PostmamCommand) (event : OneSignalEvent)
  | proxyRelayMessage (cmd : PostmamCommand) (data : WorkerData)
deriving DecidableEq

/-- Outcome of one handler run: `completed` (the handler's promise
resolved), `suspended` (the handler awaited a promise that can never
resolve), or `failed` (an awaited operation rejected and the rejection
propagated to the dispatch's caller). -/
inductive DispatchResult
  | completed
  | suspended
  | failed
deriving DecidableEq

/-- A registered worker-command handler, as its effect semantics. -/
def Handler := Env → WorkerData → List Effect × DispatchResult

/-- Modelled from the spec: the Command Channel binding; `register(kind,
handler)` associates exactly one handler per command kind (the
`WorkerMessenger` implementation is not part of the excerpt). -/
structure WorkerMessenger where
  handlers : WorkerMessengerCommand → Option Handler

/-- Modelled from the spec: `workerMessenger.off()` with no argument clears
every previously registered command handler. -/
def WorkerMessenger.off (_wm : WorkerMessenger) : WorkerMessenger :=
  ⟨fun _ => none⟩

/-- Modelled from the spec: `workerMessenger.on(cmd, handler)` registers
`handler` for `cmd`, replacing any previous handler for that kind. -/
def WorkerMessenger.on (wm : WorkerMessenger) (cmd : WorkerMessengerCommand)
    (h : Handler) : WorkerMessenger :=
  ⟨fun c => if c = cmd then some h else wm.handlers c⟩

/-- Delivering a command through the bound channel runs the registered
handler for its kind; a command with no registered handler is ignored. -/
def WorkerMessenger.dispatch (wm : WorkerMessenger)
    (cmd : WorkerMessengerCommand) (env : Env) (data : WorkerData) :
    List Effect × DispatchResult :=
  match wm.handlers cmd with
  | some h => h env data
  | none => ([], .completed)

/-- Lines 151-169: resolve the clicked-listener count. In the
`OneSignalProxyFrame` context the handler awaits
`new Promise(resolve => { if (proxyFrame) \x7b message(GET_EVENT_LISTENER_COUNT,
NOTIFICATION_CLICKED, reply => resolve(reply.data)) \x7d })`; when
`OneSignal.proxyFrame` is absent the executor registers nothing, so the
promise never resolves (`none`). In every other context the count is
`OneSignal.getListeners(NOTIFICATION_CLICKED).length`. The first component
is the trace of outbound messages the resolution sends. -/
def resolveClickedListenerCount (env : Env) : List Effect × Option Nat :=
  if env.windowEnv = .OneSignalProxyFrame then
    match env.proxyFrame with
    | some pf =>
      ([.proxyQueryMessage .GET_EVENT_LISTENER_COUNT .NOTIFICATION_CLICKED],
        some pf.replyData)
    | none => ([], none)
  else
    ([], some (env.listeners .NOTIFICATION_CLICKED).length)

/-- Lines 191-196: `let url = data.url; if (!data.url) { url = location.href }`.
The only falsy string is the empty string, so an absent or empty `url` is
replaced by `location.href`. -/
def clickedUrl (data : WorkerData) (href : String) : String :=
  match data.url with
  | some u => if u = "" then href else u
  | none => href

/-- Lines 151-201: the `NotificationClicked` handler. After the count
resolves: zero listeners stores
`{ url, data, timestamp: Date.now() }` in `NotificationOpened` (awaited; a
rejection propagates and nothing else runs), otherwise the event is
broadcast via `Event.trigger`. -/
def notificationClickedHandler : Handler := fun env data =>
  match resolveClickedListenerCount env with
  | (queryEffects, none) => (queryEffects, .suspended)
  | (queryEffects, some count) =>
    if count = 0 then
      let entry : InboxEntry :=
        { url := clickedUrl data env.locationHref
          data := data
          timestamp := env.now }
      if env.dbPutOk then
        (queryEffects ++ [.dbPut "NotificationOpened" entry], .completed)
      else
        (queryEffects, .failed)
    else
      (queryEffects ++ [.eventTrigger .NOTIFICATION_CLICKED data], .completed)

/-- Lines 146-149: the `NotificationDisplayed` handler broadcasts
unconditionally. -/
def notificationDisplayedHandler : Handler := fun _env data =>
  ([.eventTrigger .NOTIFICATION_DISPLAYED data], .completed)

/-- Lines 213-215: the `NotificationDismissed` handler broadcasts
unconditionally. -/
def notificationDismissedHandler : Handler := fun _env data =>
  ([.eventTrigger .NOTIFICATION_DISMISSED data], .completed)

/-- Lines 203-211: the `RedirectPage` handler relays the payload to the host
page over the proxy messenger when `OneSignal.proxyFrame` exists, and does
nothing otherwise. -/
def redirectPageHandler : Handler := fun env data =>
  match env.proxyFrame with
  | some _ =>
    ([.proxyRelayMessage .SERVICEWORKER_COMMAND_REDIRECT data], .completed)
  | none => ([], .completed)

/-- Lines 142-216: `MainHelper.establishServiceWorkerChannel` clears all
handlers (`off()`) and registers the four handlers, in source order. -/
def establishServiceWorkerChannel (wm : WorkerMessenger) : WorkerMessenger :=
  ((((wm.off
    ).on .NotificationDisplayed notificationDisplayedHandler
    ).on .NotificationClicked notificationClickedHandler
    ).on .RedirectPage redirectPageHandler
    ).on .NotificationDismissed notificationDismissedHandler

/-- Is the effect a local broadcast (`Event.trigger`)? -/
def isBroadcast : Effect → Bool
  | .eventTrigger _ _ => true
  | _ => false

/-- Is the effect a durable inbox write (`Database.put`)? -/
def isInboxAppend : Effect → Bool
  | .dbPut _ _ => true
  | _ => false

/-- Is the effect an outbound presence query over the proxy messenger? -/
def isProxyQuery : Effect → Bool
  | .proxyQueryMessage _ _ => true
  | _ => false

/-- Is the effect an outbound fire-and-forget relay over the proxy
messenger? -/
def isProxyRelay : Effect → Bool
  | .proxyRelayMessage _ _ => true
  | _ => false

/-- The inbox entries written in an effect trace, in order. -/
def inboxEntries (effects : List Effect) : List InboxEntry :=
  effects.filterMap fun e =>
    match e with
    | .dbPut _ entry => some entry
    | _ => none

/-- The spec's dichotomy for a delivered `Clicked` command: exactly one of
a broadcast or a durable inbox write appears in the effect trace. -/
def exactlyOneDelivery (effects : List Effect) : Prop :=
  ((effects.filter isBroadcast).length = 1 ∧
    (effects.filter isInboxAppend).length = 0) ∨
  ((effects.filter isBroadcast).length = 0 ∧
    (effects.filter isInboxAppend).length = 1)

instance (effects : List Effect) : Decidable (exactlyOneDelivery effects) := by
  unfold exactlyOneDelivery; infer_instance

/-- A host-context (non-proxy) environment with no registered listeners
whose durable put succeeds. -/
def envHostNoListeners : Env :=
  { windowEnv := .Host
    proxyFrame := none
    listeners := fun _ => []
    locationHref := "https://example.com/page"
    now := 1000
    dbPutOk := true }

/-- A host-context environment with no registered listeners whose durable
put rejects. -/
def envHostNoListenersDbFail : Env :=
  { envHostNoListeners with dbPutOk := false }

/-- An embedded-proxy-frame environment in which `OneSignal.proxyFrame` is
absent, while the local registry holds one clicked listener. -/
def envProxyNoFrame : Env :=
  { windowEnv := .OneSignalProxyFrame
    proxyFrame := none
    listeners := fun e =>
      match e with
      | .NOTIFICATION_CLICKED => [7]
      | _ => []
    locationHref := "https://example.com/frame"
    now := 2000
    dbPutOk := true }

/-- An embedded-proxy-frame environment whose controlling frame replies with
the count 5, while the local registry holds three clicked listeners. -/
def envProxyWithFrame : Env :=
  { windowEnv := .OneSignalProxyFrame
    proxyFrame := some ⟨5⟩
    listeners := fun _ => [1, 2, 3]
    locationHref := "https://example.com/frame"
    now := 3000
    dbPutOk := true }

/-- A clicked payload with no `url` property. -/
def dataNoUrl : WorkerData := ⟨none, "payload-a"⟩

/-- A clicked payload whose `url` property is present but is the empty
string (falsy in JavaScript). -/
def dataEmptyUrl : WorkerData := ⟨some "", "payload-b"⟩

/-- A clicked payload with a non-empty `url` property. -/
def dataTarget : WorkerData := ⟨some "https://example.com/target", "payload-c"⟩

/-- An empty worker messenger, the state before any binding. -/
def emptyMessenger : WorkerMessenger := ⟨fun _ => none⟩

/-! ## Helper lemmas -/

/-- Dispatching a `NotificationClicked` command through the bound channel
runs the clicked handler. -/
theorem dispatch_clicked (wm : WorkerMessenger) (env : Env) (data : WorkerData) :
    (establishServiceWorkerChannel wm).dispatch .NotificationClicked env data =
      notificationClickedHandler env data := rfl

/-- The presence resolution emits either no message or exactly the one
`GET_EVENT_LISTENER_COUNT` query. -/
theorem resolveClicked_effects_shape (env : Env) :
    (resolveClickedListenerCount env).1 = [] ∨
    (resolveClickedListenerCount env).1 =
      [Effect.proxyQueryMessage .GET_EVENT_LISTENER_COUNT .NOTIFICATION_CLICKED] := by
  unfold resolveClickedListenerCount
  by_cases h : env.windowEnv = .OneSignalProxyFrame
  · cases hpf : env.proxyFrame <;> simp [h, hpf]
  · simp [h]

/-- When the count resolves to zero and the durable put succeeds, the
clicked dispatch writes exactly one inbox entry, holding the substituted
URL, the original payload, and the current time. -/
theorem clicked_zero_inbox (wm : WorkerMessenger) (env : Env) (data : WorkerData)
    (hres : (resolveClickedListenerCount env).2 = some 0)
    (hdb : env.dbPutOk = true) :
    inboxEntries
        ((establishServiceWorkerChannel wm).dispatch .NotificationClicked env data).1 =
      [⟨clickedUrl data env.locationHref, data, env.now⟩] ∧
    ((establishServiceWorkerChannel wm).dispatch .NotificationClicked env data).1.filter
        isBroadcast = [] ∧
    ((establishServiceWorkerChannel wm).dispatch .NotificationClicked env data).2 =
      .completed := by
  rw [dispatch_clicked]
  unfold notificationClickedHandler
  have hshape := resolveClicked_effects_shape env
  rcases hq : resolveClickedListenerCount env with ⟨qe, cnt⟩
  rw [hq] at hres hshape
  simp only at hres
  subst hres
  rcases hshape with h | h <;> (simp only at h; subst h) <;>
    simp [hdb, inboxEntries, isBroadcast]

/-! ## Claims -/

/-- Claim C1, amended: for every `Clicked` command delivered through the
bound command channel whose presence resolution completes and whose durable
put succeeds, exactly one of broadcast or inbox write occurs — never both,
never neither. -/
theorem C1_exactly_one_delivery (wm : WorkerMessenger) (env : Env) (data : WorkerData)
    (hres : (resolveClickedListenerCount env).2.isSome = true)
    (hdb : env.dbPutOk = true) :
    exactlyOneDelivery
      ((establishServiceWorkerChannel wm).dispatch .NotificationClicked env data).1 := by
  rw [dispatch_clicked]
  unfold notificationClickedHandler
  have hshape := resolveClicked_effects_shape env
  rcases hq : resolveClickedListenerCount env with ⟨qe, cnt⟩
  rw [hq] at hres hshape
  rcases cnt with _ | c
  · simp at hres
  · rcases hshape with h | h <;> (simp only at h; subst h) <;>
      rcases Nat.eq_zero_or_pos c with hc | hc
    · simp [hc, hdb, exactlyOneDelivery, isBroadcast, isInboxAppend]
    · simp [Nat.pos_iff_ne_zero.mp hc, exactlyOneDelivery, isBroadcast, isInboxAppend]
    · simp [hc, hdb, exactlyOneDelivery, isBroadcast, isInboxAppend]
    · simp [Nat.pos_iff_ne_zero.mp hc, exactlyOneDelivery, isBroadcast, isInboxAppend]

/-- Claim C1 witness: a concrete host-context delivery with zero listeners
and a succeeding put satisfies the dichotomy. -/
theorem C1_witness :
    (resolveClickedListenerCount envHostNoListeners).2.isSome = true ∧
    envHostNoListeners.dbPutOk = true ∧
    exactlyOneDelivery
      ((establishServiceWorkerChannel emptyMessenger).dispatch .NotificationClicked
        envHostNoListeners dataNoUrl).1 :=
  ⟨by decide, by decide,
    C1_exactly_one_delivery emptyMessenger envHostNoListeners dataNoUrl
      (by decide) (by decide)⟩

/-- Claim C1 counterexample: with zero listeners and a rejecting durable
put, the dispatch fails and neither a broadcast nor an inbox write occurs,
so the unconditional dichotomy is violated. -/
theorem C1_counterexample :
    (resolveClickedListenerCount envHostNoListenersDbFail).2 = some 0 ∧
    ¬ exactlyOneDelivery
      ((establishServiceWorkerChannel emptyMessenger).dispatch .NotificationClicked
        envHostNoListenersDbFail dataNoUrl).1 ∧
    ((establishServiceWorkerChannel emptyMessenger).dispatch .NotificationClicked
        envHostNoListenersDbFail dataNoUrl).2 = .failed := by
  decide

/-- Claim C2: `establishServiceWorkerChannel` first clears every previously
registered handler, so its result does not depend on the previous handler
set, rebinding is idempotent, for each command kind exactly the latest
handler is registered, and dispatch through the rebound channel agrees with
dispatch through a channel bound once. -/
theorem C2_rebind_idempotent :
    ∀ wm wm' : WorkerMessenger,
      establishServiceWorkerChannel wm = establishServiceWorkerChannel wm' ∧
      establishServiceWorkerChannel (establishServiceWorkerChannel wm) =
        establishServiceWorkerChannel wm ∧
      (establishServiceWorkerChannel wm).handlers .NotificationDisplayed =
        some notificationDisplayedHandler ∧
      (establishServiceWorkerChannel wm).handlers .NotificationClicked =
        some notificationClickedHandler ∧
      (establishServiceWorkerChannel wm).handlers .RedirectPage =
        some redirectPageHandler ∧
      (establishServiceWorkerChannel wm).handlers .NotificationDismissed =
        some notificationDismissedHandler ∧
      ∀ (cmd : WorkerMessengerCommand) (env : Env) (data : WorkerData),
        (establishServiceWorkerChannel wm).dispatch cmd env data =
          (establishServiceWorkerChannel wm').dispatch cmd env data :=
  fun _ _ => ⟨rfl, rfl, rfl, rfl, rfl, rfl, fun _ _ _ => rfl⟩

/-- Claim C3, amended: a zero-listener `Clicked` dispatch writes an inbox
entry whose `url` is the payload's `url` when that is present and
non-empty, and `location.href` otherwise; the entry carries the original
payload and the current timestamp. -/
theorem C3_inbox_entry_fields (wm : WorkerMessenger) (env : Env) (data : WorkerData)
    (hres : (resolveClickedListenerCount env).2 = some 0)
    (hdb : env.dbPutOk = true) :
    (∀ u, data.url = some u → u ≠ "" →
      inboxEntries
          ((establishServiceWorkerChannel wm).dispatch .NotificationClicked env data).1 =
        [⟨u, data, env.now⟩]) ∧
    (data.url = none ∨ data.url = some "" →
      inboxEntries
          ((establishServiceWorkerChannel wm).dispatch .NotificationClicked env data).1 =
        [⟨env.locationHref, data, env.now⟩]) := by
  have hmain := (clicked_zero_inbox wm env data hres hdb).1
  constructor
  · intro u hu hne
    rw [hmain]
    unfold clickedUrl
    rw [hu]
    simp [hne]
  · intro hu
    rw [hmain]
    unfold clickedUrl
    rcases hu with hu | hu <;> simp [hu]

/-- Claim C3 witness: a non-empty payload URL is stored verbatim. -/
theorem C3_witness :
    dataTarget.url = some "https://example.com/target" ∧
    inboxEntries
        ((establishServiceWorkerChannel emptyMessenger).dispatch .NotificationClicked
          envHostNoListeners dataTarget).1 =
      [⟨"https://example.com/target", dataTarget, 1000⟩] :=
  ⟨rfl,
    (C3_inbox_entry_fields emptyMessenger envHostNoListeners dataTarget rfl rfl).1
      "https://example.com/target" rfl (by decide)⟩

/-- Claim C3 counterexample: a payload that provides `url = ""` is not used
verbatim — the entry stores `location.href` instead, because the source
tests falsiness (`!data.url`), not presence. -/
theorem C3_counterexample :
    dataEmptyUrl.url = some "" ∧
    inboxEntries
        ((establishServiceWorkerChannel emptyMessenger).dispatch .NotificationClicked
          envHostNoListeners dataEmptyUrl).1 =
      [⟨"https://example.com/page", dataEmptyUrl, 1000⟩] ∧
    "https://example.com/page" ≠ "" := by
  decide

/-- Claim C4: `Displayed` and `Dismissed` commands are broadcast
unconditionally with their payload, in every environment, and never write
an inbox entry. -/
theorem C4_displayed_dismissed_unconditional :
    ∀ (wm : WorkerMessenger) (env : Env) (data : WorkerData),
      (establishServiceWorkerChannel wm).dispatch .NotificationDisplayed env data =
        ([.eventTrigger .NOTIFICATION_DISPLAYED data], .completed) ∧
      (establishServiceWorkerChannel wm).dispatch .NotificationDismissed env data =
        ([.eventTrigger .NOTIFICATION_DISMISSED data], .completed) ∧
      inboxEntries
        ((establishServiceWorkerChannel wm).dispatch .NotificationDisplayed env data).1 = [] ∧
      inboxEntries
        ((establishServiceWorkerChannel wm).dispatch .NotificationDismissed env data).1 = [] :=
  fun _ _ _ => ⟨rfl, rfl, rfl, rfl⟩

/-- Claim C5: a `RedirectRequested` command never writes an inbox entry and
never triggers a local broadcast; its effect trace is exactly the
fire-and-forget relay of the payload when the proxy frame exists, and empty
otherwise, and the dispatch completes. -/
theorem C5_redirect_relay_only :
    ∀ (wm : WorkerMessenger) (env : Env) (data : WorkerData),
      inboxEntries
        ((establishServiceWorkerChannel wm).dispatch .RedirectPage env data).1 = [] ∧
      ((establishServiceWorkerChannel wm).dispatch .RedirectPage env data).1.filter
        isBroadcast = [] ∧
      ((establishServiceWorkerChannel wm).dispatch .RedirectPage env data).1.all
        isProxyRelay = true ∧
      ((establishServiceWorkerChannel wm).dispatch .RedirectPage env data).1 =
        (match env.proxyFrame with
          | some _ => [Effect.proxyRelayMessage .SERVICEWORKER_COMMAND_REDIRECT data]
          | none => []) ∧
      ((establishServiceWorkerChannel wm).dispatch .RedirectPage env data).2 =
        .completed := by
  intro wm env data
  have hd : (establishServiceWorkerChannel wm).dispatch .RedirectPage env data =
      redirectPageHandler env data := rfl
  rw [hd]
  unfold redirectPageHandler
  cases env.proxyFrame <;> simp [inboxEntries, isBroadcast, isProxyRelay]

/-- Claim C6: presence resolution is delegated exactly in the embedded
proxy-frame context: elsewhere it emits no message and returns the local
registry's clicked-listener count; in the proxy-frame context its outcome
is independent of the local registry. -/
theorem C6_presence_mode (env : Env) :
    (env.windowEnv ≠ .OneSignalProxyFrame →
      resolveClickedListenerCount env =
        ([], some (env.listeners .NOTIFICATION_CLICKED).length)) ∧
    (env.windowEnv = .OneSignalProxyFrame →
      ∀ l, resolveClickedListenerCount { env with listeners := l } =
        resolveClickedListenerCount env) := by
  constructor
  · intro h
    unfold resolveClickedListenerCount
    simp [h]
  · intro h l
    unfold resolveClickedListenerCount
    simp [h]

/-- Claim C6 witness: in a host context the count is the local registry's
length; in a proxy-frame context replacing the registry leaves the
resolution unchanged. -/
theorem C6_witness :
    resolveClickedListenerCount envHostNoListeners = ([], some 0) ∧
    resolveClickedListenerCount { envProxyWithFrame with listeners := fun _ => [9, 9] } =
      resolveClickedListenerCount envProxyWithFrame :=
  ⟨((C6_presence_mode envHostNoListeners).1 (by decide)).trans (by decide),
    (C6_presence_mode envProxyWithFrame).2 rfl (fun _ => [9, 9])⟩

/-- Claim C7: in the embedded proxy-frame context with the proxy frame
present, resolving the clicked-listener count sends exactly the one
`GET_EVENT_LISTENER_COUNT` query, resolves with exactly the integer carried
in the single reply, and is independent of the local registry. -/
theorem C7_delegated_single_query (env : Env) (pf : ProxyFrame)
    (hw : env.windowEnv = .OneSignalProxyFrame)
    (hpf : env.proxyFrame = some pf) :
    (resolveClickedListenerCount env).1 =
      [.proxyQueryMessage .GET_EVENT_LISTENER_COUNT .NOTIFICATION_CLICKED] ∧
    (resolveClickedListenerCount env).2 = some pf.replyData ∧
    ∀ l, resolveClickedListenerCount { env with listeners := l } =
      resolveClickedListenerCount env := by
  unfold resolveClickedListenerCount
  simp [hw, hpf]

/-- Claim C7 witness: with a controlling frame replying 5 and three local
clicked listeners, the resolution sends one query and yields 5. -/
theorem C7_witness :
    (resolveClickedListenerCount envProxyWithFrame).1 =
      [.proxyQueryMessage .GET_EVENT_LISTENER_COUNT .NOTIFICATION_CLICKED] ∧
    (resolveClickedListenerCount envProxyWithFrame).2 = some 5 ∧
    ∀ l, resolveClickedListenerCount { envProxyWithFrame with listeners := l } =
      resolveClickedListenerCount envProxyWithFrame :=
  C7_delegated_single_query envProxyWithFrame ⟨5⟩ rfl rfl

/-- Claim C8: when the count resolves to zero and the durable put rejects,
the clicked dispatch rejects — no broadcast, no inbox entry, and no silent
completion. -/
theorem C8_db_failure_propagates (wm : WorkerMessenger) (env : Env) (data : WorkerData)
    (hres : (resolveClickedListenerCount env).2 = some 0)
    (hdb : env.dbPutOk = false) :
    ((establishServiceWorkerChannel wm).dispatch .NotificationClicked env data).2 =
      .failed ∧
    ((establishServiceWorkerChannel wm).dispatch .NotificationClicked env data).1.filter
      isBroadcast = [] ∧
    inboxEntries
      ((establishServiceWorkerChannel wm).dispatch .NotificationClicked env data).1 = [] ∧
    ((establishServiceWorkerChannel wm).dispatch .NotificationClicked env data).2 ≠
      .completed := by
  rw [dispatch_clicked]
  unfold notificationClickedHandler
  have hshape := resolveClicked_effects_shape env
  rcases hq : resolveClickedListenerCount env with ⟨qe, cnt⟩
  rw [hq] at hres hshape
  simp only at hres
  subst hres
  rcases hshape with h | h <;> (simp only at h; subst h) <;>
    simp [hdb, inboxEntries, isBroadcast]

/-- Claim C8 witness: the concrete rejecting-put delivery fails with no
broadcast and no inbox entry. -/
theorem C8_witness :
    ((establishServiceWorkerChannel emptyMessenger).dispatch .NotificationClicked
      envHostNoListenersDbFail dataNoUrl).2 = .failed ∧
    ((establishServiceWorkerChannel emptyMessenger).dispatch .NotificationClicked
      envHostNoListenersDbFail dataNoUrl).1.filter isBroadcast = [] ∧
    inboxEntries
      ((establishServiceWorkerChannel emptyMessenger).dispatch .NotificationClicked
        envHostNoListenersDbFail dataNoUrl).1 = [] ∧
    ((establishServiceWorkerChannel emptyMessenger).dispatch .NotificationClicked
      envHostNoListenersDbFail dataNoUrl).2 ≠ .completed :=
  C8_db_failure_propagates emptyMessenger envHostNoListenersDbFail dataNoUrl rfl rfl

/-- Claim C9, amended: when `OneSignal.proxyFrame` is absent, the redirect
relay is a no-op that completes without error and non-proxy contexts
resolve presence locally; but in the embedded proxy-frame context the
presence query does not fall back to Local mode — the clicked dispatch
suspends forever (still surfacing no error). -/
theorem C9_transport_unavailable (wm : WorkerMessenger) (env : Env) (data : WorkerData)
    (hpf : env.proxyFrame = none) :
    (establishServiceWorkerChannel wm).dispatch .RedirectPage env data =
      ([], .completed) ∧
    (env.windowEnv ≠ .OneSignalProxyFrame →
      resolveClickedListenerCount env =
        ([], some (env.listeners .NOTIFICATION_CLICKED).length)) ∧
    (env.windowEnv = .OneSignalProxyFrame →
      (establishServiceWorkerChannel wm).dispatch .NotificationClicked env data =
        ([], .suspended)) := by
  refine ⟨?_, ?_, ?_⟩
  · have hd : (establishServiceWorkerChannel wm).dispatch .RedirectPage env data =
        redirectPageHandler env data := rfl
    rw [hd]
    unfold redirectPageHandler
    rw [hpf]
  · intro h
    unfold resolveClickedListenerCount
    simp [h]
  · intro h
    rw [dispatch_clicked]
    unfold notificationClickedHandler resolveClickedListenerCount
    rw [hpf]
    simp [h]

/-- Claim C9 witness: with no proxy frame, a host-context redirect is a
completed no-op, host-context presence is resolved locally, and a
proxy-frame-context clicked dispatch suspends. -/
theorem C9_witness :
    (establishServiceWorkerChannel emptyMessenger).dispatch .RedirectPage
      envHostNoListeners dataNoUrl = ([], .completed) ∧
    resolveClickedListenerCount envHostNoListeners = ([], some 0) ∧
    (establishServiceWorkerChannel emptyMessenger).dispatch .NotificationClicked
      envProxyNoFrame dataNoUrl = ([], .suspended) :=
  ⟨(C9_transport_unavailable emptyMessenger envHostNoListeners dataNoUrl rfl).1,
    ((C9_transport_unavailable emptyMessenger envHostNoListeners dataNoUrl rfl).2.1
      (by decide)).trans (by decide),
    (C9_transport_unavailable emptyMessenger envProxyNoFrame dataNoUrl rfl).2.2 rfl⟩

/-- Claim C9 counterexample: in the embedded proxy-frame context with no
frame reference and one local clicked listener, the dispatch suspends with
no effects — the presence query is not resolved locally (Local mode would
have returned the count 1), contradicting the claimed local fallback. -/
theorem C9_counterexample :
    (envProxyNoFrame.listeners .NOTIFICATION_CLICKED).length = 1 ∧
    (establishServiceWorkerChannel emptyMessenger).dispatch .NotificationClicked
      envProxyNoFrame dataNoUrl = ([], .suspended) ∧
    resolveClickedListenerCount envProxyNoFrame ≠
      ([], some (envProxyNoFrame.listeners .NOTIFICATION_CLICKED).length) ∧
    DispatchResult.suspended ≠ DispatchResult.completed := by
  decide

/-- Claim C10: a `Clicked` payload whose `url` is present but empty (falsy)
is not stored verbatim on the zero-listener path: the inbox entry's `url`
is `location.href`, because the source checks falsiness, not absence. -/
theorem C10_falsy_url_substituted (wm : WorkerMessenger) (env : Env) (data : WorkerData)
    (hurl : data.url = some "")
    (hres : (resolveClickedListenerCount env).2 = some 0)
    (hdb : env.dbPutOk = true) :
    inboxEntries
        ((establishServiceWorkerChannel wm).dispatch .NotificationClicked env data).1 =
      [⟨env.locationHref, data, env.now⟩] := by
  rw [(clicked_zero_inbox wm env data hres hdb).1]
  unfold clickedUrl
  rw [hurl]
  simp

/-- Claim C10 witness: the empty-string URL payload is stored with
`location.href` in its place. -/
theorem C10_witness :
    inboxEntries
        ((establishServiceWorkerChannel emptyMessenger).dispatch .NotificationClicked
          envHostNoListeners dataEmptyUrl).1 =
      [⟨"https://example.com/page", dataEmptyUrl, 1000⟩] :=
  C10_falsy_url_substituted emptyMessenger envHostNoListeners dataEmptyUrl rfl rfl rfl

end OneSignalSDK
